import Mathlib

/-!
Verification of the solar shadow calculator repository.

The repository contains four near-duplicate Python scripts (CG, CL, DS, GE)
computing solar declination, solar elevation and shadow length for a fixed
site.  The computational core of each variant is embedded below as Lean
definitions over the real numbers.  Python `math.asin` raises a ValueError
outside `[-1, 1]`; it is embedded as an `Option`-valued function.  The
`float('inf')` sentinel returned by the guarded shadow-length functions is
embedded as `none`.
-/

namespace ShadowCalc

open Real

/-- `math.radians`: degrees to radians. -/
noncomputable def radians (x : ℝ) : ℝ := x * Real.pi / 180

/-- `math.degrees`: radians to degrees. -/
noncomputable def degreesOf (x : ℝ) : ℝ := x * 180 / Real.pi

/-- `math.asin`, which raises ValueError when its argument is outside
`[-1, 1]`; the error is embedded as `none`. -/
noncomputable def asinChecked (x : ℝ) : Option ℝ :=
  if -1 ≤ x ∧ x ≤ 1 then some (Real.arcsin x) else none

/-! ## GE variant (`GE_shadow_calculator.py`) -/

namespace GE

/-- `dms_to_decimal` from `GE_shadow_calculator.py`. -/
noncomputable def dms_to_decimal (degrees minutes seconds : ℝ) (direction : Char) : ℝ :=
  let decimal_degrees := degrees + minutes / 60 + seconds / 3600
  if direction = 'S' ∨ direction = 'W' then -decimal_degrees else decimal_degrees

/-- `calculate_solar_declination` from `GE_shadow_calculator.py`:
`0.409 * math.sin(((2 * math.pi / 365) * day_of_year) - 1.39)`.
Its docstring says the result is in radians. -/
noncomputable def calculate_solar_declination (day_of_year : ℝ) : ℝ :=
  0.409 * Real.sin ((2 * Real.pi / 365) * day_of_year - 1.39)

/-- `calculate_hour_angle` from `GE_shadow_calculator.py`: always returns 0. -/
def calculate_hour_angle (_local_time_decimal _longitude _standard_meridian : ℝ) : ℝ := 0

/-- `calculate_solar_elevation` from `GE_shadow_calculator.py`.  The latitude
is in degrees; declination and hour angle are in radians.  The asin argument
is clamped to `[-1, 1]`, and a non-positive elevation is replaced by 0. -/
noncomputable def calculate_solar_elevation (latitude declination hour_angle : ℝ) : Option ℝ :=
  let lat_rad := radians latitude
  let sin_alpha := Real.sin lat_rad * Real.sin declination +
    Real.cos lat_rad * Real.cos declination * Real.cos hour_angle
  let clamped := max (-1) (min 1 sin_alpha)
  (asinChecked clamped).map (fun elevation_rad =>
    if 0 < elevation_rad then elevation_rad else 0)

/-- `calculate_shadow_length` from `GE_shadow_calculator.py`; the elevation is
in radians and `none` embeds the `float('inf')` sentinel. -/
noncomputable def calculate_shadow_length (obstacle_height solar_elevation : ℝ) : Option ℝ :=
  if solar_elevation ≤ 0 then none
  else some (obstacle_height / Real.tan solar_elevation)

end GE

/-! ## CL variant (`CL_shadow_calculator.py`) -/

namespace CL

/-- The state of `SolarShadowAnalyzer.__init__`: latitude, longitude,
obstacle height and the season table (label, day of year, display name). -/
structure SolarShadowAnalyzer where
  latitude : ℝ
  longitude : ℝ
  obstacle_height : ℝ
  seasons : List (String × ℝ × String)

/-- `SolarShadowAnalyzer.dms_to_decimal` from `CL_shadow_calculator.py`. -/
noncomputable def dms_to_decimal (degrees minutes seconds : ℝ) (direction : Char) : ℝ :=
  let decimal := degrees + minutes / 60 + seconds / 3600
  if direction = 'S' ∨ direction = 'W' then -decimal else decimal

/-- `SolarShadowAnalyzer.solar_declination` from `CL_shadow_calculator.py`:
`23.45 * math.sin(math.radians(360 * (284 + day_of_year) / 365))`. -/
noncomputable def solar_declination (day_of_year : ℝ) : ℝ :=
  23.45 * Real.sin (radians (360 * (284 + day_of_year) / 365))

/-- `SolarShadowAnalyzer.solar_elevation` from `CL_shadow_calculator.py`:
all inputs in degrees, no clamp on the asin argument, result in degrees. -/
noncomputable def solar_elevation (self : SolarShadowAnalyzer)
    (declination : ℝ) (hour_angle : ℝ) : Option ℝ :=
  let lat_rad := radians self.latitude
  let dec_rad := radians declination
  let hour_rad := radians hour_angle
  (asinChecked (Real.sin lat_rad * Real.sin dec_rad +
    Real.cos lat_rad * Real.cos dec_rad * Real.cos hour_rad)).map degreesOf

/-- `SolarShadowAnalyzer.shadow_length` from `CL_shadow_calculator.py`;
`none` embeds the `float('inf')` sentinel returned when the elevation is
non-positive. -/
noncomputable def shadow_length (self : SolarShadowAnalyzer)
    (solar_elevation_deg : ℝ) : Option ℝ :=
  if solar_elevation_deg ≤ 0 then none
  else some (self.obstacle_height / Real.tan (radians solar_elevation_deg))

/-- One entry of the `results` dict built by `calculate_seasonal_shadows`. -/
structure SeasonResult where
  declination : ℝ
  elevation : ℝ
  shadow_len : Option ℝ
  display_name : String

/-- The loop body sequence of `SolarShadowAnalyzer.calculate_seasonal_shadows`:
iterates the season table in order, keeping insertion order of the keys.
A `math.asin` ValueError inside `solar_elevation` aborts the whole loop,
embedded as an outer `none`. -/
noncomputable def seasonalLoop (self : SolarShadowAnalyzer) :
    List (String × ℝ × String) → Option (List (String × SeasonResult))
  | [] => some []
  | (season, day, name) :: rest =>
    match solar_elevation self (solar_declination day) 0 with
    | none => none
    | some elevation =>
      (seasonalLoop self rest).map (fun rs =>
        (season, { declination := solar_declination day, elevation := elevation,
                   shadow_len := shadow_length self elevation,
                   display_name := name }) :: rs)

/-- `SolarShadowAnalyzer.calculate_seasonal_shadows` from
`CL_shadow_calculator.py`. -/
noncomputable def calculate_seasonal_shadows (self : SolarShadowAnalyzer) :
    Option (List (String × SeasonResult)) :=
  seasonalLoop self self.seasons

/-- The declination/elevation/shadow chain applied to a single day, exactly
the body of the `calculate_seasonal_shadows` loop.  The outer `Option` is a
`math.asin` error, the inner `Option` the infinite-shadow sentinel. -/
noncomputable def seasonShadow (self : SolarShadowAnalyzer) (day : ℝ) :
    Option (Option ℝ) :=
  (solar_elevation self (solar_declination day) 0).map
    (fun elevation => shadow_length self elevation)

/-- The analyzer built by `main()` in `CL_shadow_calculator.py`: the site
coordinates converted from DMS and the 1.65 m obstacle. -/
noncomputable def mainAnalyzer : SolarShadowAnalyzer :=
  { latitude := -21 - 44 / 60 - 21.3 / 3600
    longitude := -48 - 6 / 60 - 21.4 / 3600
    obstacle_height := 1.65
    seasons := [("Solsticio de Verao", 355, "Verao (21 Dez)"),
                ("Equinocio de Outono", 80, "Outono (21 Mar)"),
                ("Solsticio de Inverno", 172, "Inverno (21 Jun)"),
                ("Equinocio de Primavera", 266, "Primavera (23 Set)")] }

/-- The shadow length the CL pipeline computes for day 172 at the main
analyzer (finite value extracted from the two option layers). -/
noncomputable def winterShadow : ℝ :=
  ((seasonShadow mainAnalyzer 172).getD none).getD 0

/-- The shadow length the CL pipeline computes for day 355 at the main
analyzer. -/
noncomputable def summerShadow : ℝ :=
  ((seasonShadow mainAnalyzer 355).getD none).getD 0

end CL

/-! ## DS variant (`DS_python_20250720_baee44.py`) -/

namespace DS

/-- `graus_para_decimal` from `DS_python_20250720_baee44.py`
(the source multiplies by -1 in the southern/western case). -/
noncomputable def graus_para_decimal (graus minutos segundos : ℝ) (direcao : Char) : ℝ :=
  let decimal := graus + minutos / 60 + segundos / 3600
  if direcao = 'S' ∨ direcao = 'W' then decimal * (-1) else decimal

/-- `calcular_declinacao_solar` from `DS_python_20250720_baee44.py`. -/
noncomputable def calcular_declinacao_solar (dia_ano : ℝ) : ℝ :=
  23.45 * Real.sin (radians (360 * (284 + dia_ano) / 365))

/-- `calcular_elevacao_solar` from `DS_python_20250720_baee44.py`:
all inputs in degrees, no clamp on the asin argument, result in degrees. -/
noncomputable def calcular_elevacao_solar (latitude declinacao angulo_horario : ℝ) :
    Option ℝ :=
  (asinChecked (Real.sin (radians latitude) * Real.sin (radians declinacao) +
    Real.cos (radians latitude) * Real.cos (radians declinacao) *
      Real.cos (radians angulo_horario))).map degreesOf

/-- `calcular_comprimento_sombra` from `DS_python_20250720_baee44.py`;
`none` embeds the `float('inf')` sentinel. -/
noncomputable def calcular_comprimento_sombra (altura elevacao_solar : ℝ) : Option ℝ :=
  if elevacao_solar ≤ 0 then none
  else some (altura / Real.tan (radians elevacao_solar))

/-- One entry of the `resultados` dict built by the DS season loop. -/
structure Resultado where
  declinacao : ℝ
  elevacao_solar : ℝ
  comprimento_sombra : Option ℝ
  data : String

/-- The `resultados` loop of `DS_python_20250720_baee44.py`: iterates the
season table in order, applying declination, elevation (hour angle 0) and
shadow length. -/
noncomputable def resultadosLoop (lat alt : ℝ) :
    List (String × String × ℝ) → Option (List (String × Resultado))
  | [] => some []
  | (estacao, dataStr, dia) :: rest =>
    match calcular_elevacao_solar lat (calcular_declinacao_solar dia) 0 with
    | none => none
    | some elevacao =>
      (resultadosLoop lat alt rest).map (fun rs =>
        (estacao, { declinacao := calcular_declinacao_solar dia,
                    elevacao_solar := elevacao,
                    comprimento_sombra := calcular_comprimento_sombra alt elevacao,
                    data := dataStr }) :: rs)

end DS

/-! ## CG variant (`CG_shadow_calculator.py`) -/

namespace CG

/-- `elevacao_solar` from `CG_shadow_calculator.py`: the closed noon form
`90 - abs(lat - decl)`, both inputs in degrees, no asin. -/
noncomputable def elevacao_solar (lat decl : ℝ) : ℝ := 90 - |lat - decl|

/-- `comprimento_sombra` from `CG_shadow_calculator.py`: an unguarded
division `altura / math.tan(math.radians(elevacao_graus))`; there is no
sentinel branch for a non-positive elevation. -/
noncomputable def comprimento_sombra (altura elevacao_graus : ℝ) : ℝ :=
  altura / Real.tan (radians elevacao_graus)

end CG

/-! ## Shared lemmas -/

/-- The asin argument of the elevation formula lies in `[-1, 1]` for every
real latitude, declination and hour angle. -/
lemma asin_arg_bounds (a b c : ℝ) :
    -1 ≤ Real.sin a * Real.sin b + Real.cos a * Real.cos b * Real.cos c ∧
      Real.sin a * Real.sin b + Real.cos a * Real.cos b * Real.cos c ≤ 1 := by
  have ha := Real.sin_sq_add_cos_sq a
  have hb := Real.sin_sq_add_cos_sq b
  have hc1 := Real.neg_one_le_cos c
  have hc2 := Real.cos_le_one c
  have hkey : 0 ≤ (1 - Real.cos c) * (1 + Real.cos c) * Real.cos b ^ 2 :=
    mul_nonneg (mul_nonneg (by linarith) (by linarith)) (sq_nonneg _)
  constructor
  · nlinarith [sq_nonneg (Real.sin a + Real.sin b),
      sq_nonneg (Real.cos a + Real.cos b * Real.cos c), hkey]
  · nlinarith [sq_nonneg (Real.sin a - Real.sin b),
      sq_nonneg (Real.cos a - Real.cos b * Real.cos c), hkey]

lemma asinChecked_eq_some {x : ℝ} (h1 : -1 ≤ x) (h2 : x ≤ 1) :
    asinChecked x = some (Real.arcsin x) := by
  unfold asinChecked
  rw [if_pos ⟨h1, h2⟩]

lemma radians_zero : radians 0 = 0 := by
  unfold radians
  ring

lemma radians_degreesOf (y : ℝ) : radians (degreesOf y) = y := by
  unfold radians degreesOf
  field_simp

lemma degrees_pi_div_two_sub (u : ℝ) :
    degreesOf (Real.pi / 2 - radians u) = 90 - u := by
  unfold degreesOf radians
  field_simp
  ring

lemma radians_ninety_sub (u : ℝ) :
    radians (90 - u) = Real.pi / 2 - radians u := by
  unfold radians
  ring

lemma cos_radians_abs (x : ℝ) : Real.cos (radians |x|) = Real.cos (radians x) := by
  rcases abs_cases x with ⟨he, _⟩ | ⟨he, _⟩
  · rw [he]
  · rw [he]
    have hneg : radians (-x) = -radians x := by
      unfold radians
      ring
    rw [hneg, Real.cos_neg]

/-- At hour angle zero the asin argument of the elevation formula collapses
to the cosine of the latitude/declination gap. -/
lemma noonArg_eq_cos (φ δ : ℝ) :
    Real.sin (radians φ) * Real.sin (radians δ) +
      Real.cos (radians φ) * Real.cos (radians δ) * Real.cos (radians 0) =
      Real.cos (radians |φ - δ|) := by
  rw [radians_zero, Real.cos_zero, mul_one, cos_radians_abs]
  have hsub : radians (φ - δ) = radians φ - radians δ := by
    unfold radians
    ring
  rw [hsub, Real.cos_sub]
  ring

lemma radians_abs_nonneg (x : ℝ) : 0 ≤ radians |x| := by
  unfold radians
  have := Real.pi_pos
  have := abs_nonneg x
  positivity

lemma radians_abs_le_pi {x : ℝ} (h : |x| ≤ 180) : radians |x| ≤ Real.pi := by
  unfold radians
  have hpi := Real.pi_pos
  rw [div_le_iff (by norm_num : (0:ℝ) < 180)]
  nlinarith [abs_nonneg x]

lemma arcsin_cos_radians {u : ℝ} (h0 : 0 ≤ u) (h1 : u ≤ 180) :
    Real.arcsin (Real.cos (radians u)) = Real.pi / 2 - radians u := by
  have habs : |u| = u := abs_of_nonneg h0
  have hle : radians u ≤ Real.pi := by
    have := radians_abs_le_pi (x := u) (by rw [habs]; exact h1)
    rwa [habs] at this
  have hge : 0 ≤ radians u := by
    have := radians_abs_nonneg u
    rwa [habs] at this
  rw [← Real.sin_pi_div_two_sub]
  exact Real.arcsin_sin (by linarith) (by linarith)

/-- The CL elevation operation at hour angle zero computes
`90 - |latitude - declination|` degrees whenever the gap is at most 180. -/
lemma CL_elev_noon (a : CL.SolarShadowAnalyzer) (δ : ℝ)
    (h : |a.latitude - δ| ≤ 180) :
    CL.solar_elevation a δ 0 = some (90 - |a.latitude - δ|) := by
  obtain ⟨h1, h2⟩ := asin_arg_bounds (radians a.latitude) (radians δ) (radians 0)
  simp only [CL.solar_elevation, asinChecked_eq_some h1 h2, Option.map_some']
  rw [noonArg_eq_cos, arcsin_cos_radians (abs_nonneg _) h, degrees_pi_div_two_sub]

/-- The DS elevation operation at hour angle zero computes
`90 - |latitude - declination|` degrees whenever the gap is at most 180. -/
lemma DS_elev_noon (lat δ : ℝ) (h : |lat - δ| ≤ 180) :
    DS.calcular_elevacao_solar lat δ 0 = some (90 - |lat - δ|) := by
  obtain ⟨h1, h2⟩ := asin_arg_bounds (radians lat) (radians δ) (radians 0)
  simp only [DS.calcular_elevacao_solar, asinChecked_eq_some h1 h2, Option.map_some']
  rw [noonArg_eq_cos, arcsin_cos_radians (abs_nonneg _) h, degrees_pi_div_two_sub]

lemma CL_elev_isSome (a : CL.SolarShadowAnalyzer) (δ ω : ℝ) :
    ∃ α, CL.solar_elevation a δ ω = some α := by
  obtain ⟨h1, h2⟩ := asin_arg_bounds (radians a.latitude) (radians δ) (radians ω)
  refine ⟨degreesOf (Real.arcsin (Real.sin (radians a.latitude) * Real.sin (radians δ) +
    Real.cos (radians a.latitude) * Real.cos (radians δ) * Real.cos (radians ω))), ?_⟩
  simp only [CL.solar_elevation, asinChecked_eq_some h1 h2, Option.map_some']

lemma DS_elev_isSome (lat δ ω : ℝ) :
    ∃ α, DS.calcular_elevacao_solar lat δ ω = some α := by
  obtain ⟨h1, h2⟩ := asin_arg_bounds (radians lat) (radians δ) (radians ω)
  refine ⟨degreesOf (Real.arcsin (Real.sin (radians lat) * Real.sin (radians δ) +
    Real.cos (radians lat) * Real.cos (radians δ) * Real.cos (radians ω))), ?_⟩
  simp only [DS.calcular_elevacao_solar, asinChecked_eq_some h1 h2, Option.map_some']

lemma radians_pos {e : ℝ} (h : 0 < e) : 0 < radians e := by
  unfold radians
  have := Real.pi_pos
  positivity

lemma radians_lt_pi_div_two {e : ℝ} (h : e < 90) : radians e < Real.pi / 2 := by
  unfold radians
  have hpi := Real.pi_pos
  rw [div_lt_iff (by norm_num : (0:ℝ) < 180)]
  nlinarith

lemma radians_strictMono {e1 e2 : ℝ} (h : e1 < e2) : radians e1 < radians e2 := by
  unfold radians
  have hpi := Real.pi_pos
  rw [div_lt_div_iff (by norm_num : (0:ℝ) < 180) (by norm_num : (0:ℝ) < 180)]
  nlinarith

/-- Positivity and strict antitonicity of `h / tan(radians e)` on elevations
strictly between 0 and 90 degrees. -/
lemma tan_shadow_mono {hgt e1 e2 : ℝ} (hh : 0 < hgt) (h1 : 0 < e1)
    (h12 : e1 < e2) (h2 : e2 < 90) :
    0 < hgt / Real.tan (radians e2) ∧
      hgt / Real.tan (radians e2) < hgt / Real.tan (radians e1) := by
  have hr1 : 0 < radians e1 := radians_pos h1
  have hr2 : radians e2 < Real.pi / 2 := radians_lt_pi_div_two h2
  have hr12 : radians e1 < radians e2 := radians_strictMono h12
  have ht1 : 0 < Real.tan (radians e1) :=
    Real.tan_pos_of_pos_of_lt_pi_div_two hr1 (hr12.trans hr2)
  have ht2 : 0 < Real.tan (radians e2) :=
    Real.tan_pos_of_pos_of_lt_pi_div_two (hr1.trans hr12) hr2
  have htlt : Real.tan (radians e1) < Real.tan (radians e2) :=
    Real.tan_lt_tan_of_nonneg_of_lt_pi_div_two hr1.le hr2 hr12
  exact ⟨div_pos hh ht2, div_lt_div_of_pos_left hh ht1 htlt⟩

lemma CL_shadow_of_pos (a : CL.SolarShadowAnalyzer) {e : ℝ} (h : 0 < e) :
    CL.shadow_length a e = some (a.obstacle_height / Real.tan (radians e)) := by
  unfold CL.shadow_length
  rw [if_neg (not_le.mpr h)]

lemma DS_shadow_of_pos (alt : ℝ) {e : ℝ} (h : 0 < e) :
    DS.calcular_comprimento_sombra alt e =
      some (alt / Real.tan (radians e)) := by
  unfold DS.calcular_comprimento_sombra
  rw [if_neg (not_le.mpr h)]

/-- The Cooper-formula argument for day 172 is `pi/2 - pi/730` up to a full
turn, so the day-172 declination is exactly `23.45 cos(pi/730)`. -/
lemma decl172 : CL.solar_declination 172 = 23.45 * Real.cos (Real.pi / 730) := by
  unfold CL.solar_declination radians
  have harg : (360 * ((284 : ℝ) + 172) / 365) * Real.pi / 180 =
      Real.pi / 2 - Real.pi / 730 + 2 * Real.pi := by
    ring
  rw [harg, Real.sin_add_two_pi, Real.sin_pi_div_two_sub]

/-- The Cooper-formula argument for day 355 is `pi/2 + pi/730` plus a half
turn and a full turn, so the day-355 declination is exactly
`-(23.45 cos(pi/730))`. -/
lemma decl355 : CL.solar_declination 355 = -(23.45 * Real.cos (Real.pi / 730)) := by
  unfold CL.solar_declination radians
  have harg : (360 * ((284 : ℝ) + 355) / 365) * Real.pi / 180 =
      Real.pi / 2 + Real.pi / 730 + Real.pi + 2 * Real.pi := by
    ring
  rw [harg, Real.sin_add_two_pi, Real.sin_add_pi, Real.sin_add,
    Real.sin_pi_div_two, Real.cos_pi_div_two]
  ring

lemma cos_pi_div_730_bounds :
    0.99999 ≤ Real.cos (Real.pi / 730) ∧ Real.cos (Real.pi / 730) ≤ 1 := by
  have hub := Real.cos_le_one (Real.pi / 730)
  have hlb := Real.one_sub_sq_div_two_le_cos (x := Real.pi / 730)
  have hpi1 := Real.pi_pos
  have hpi2 := Real.pi_lt_d2
  constructor
  · nlinarith
  · exact hub

/-- The CL season-loop body at noon: when the latitude/declination gap is
strictly between 0 and 90 degrees, the computed shadow is the finite value
`height * tan(radians(gap))`. -/
lemma seasonShadow_formula (a : CL.SolarShadowAnalyzer) (day : ℝ)
    (h0 : 0 < |a.latitude - CL.solar_declination day|)
    (h90 : |a.latitude - CL.solar_declination day| < 90) :
    CL.seasonShadow a day =
      some (some (a.obstacle_height *
        Real.tan (radians |a.latitude - CL.solar_declination day|))) := by
  unfold CL.seasonShadow
  rw [CL_elev_noon a (CL.solar_declination day) (by linarith)]
  simp only [Option.map_some']
  rw [CL_shadow_of_pos a
    (by linarith : (0:ℝ) < 90 - |a.latitude - CL.solar_declination day|)]
  rw [radians_ninety_sub, Real.tan_pi_div_two_sub, div_inv_eq_mul]

lemma u_winter_bounds :
    45.189 ≤ |CL.mainAnalyzer.latitude - CL.solar_declination 172| ∧
      |CL.mainAnalyzer.latitude - CL.solar_declination 172| ≤ 45.1893 := by
  rw [decl172]
  obtain ⟨hc1, hc2⟩ := cos_pi_div_730_bounds
  have hlat : CL.mainAnalyzer.latitude = -21 - 44 / 60 - 21.3 / 3600 := rfl
  rw [hlat, abs_of_neg (by nlinarith)]
  constructor <;> nlinarith

lemma u_summer_bounds :
    1.7105 ≤ |CL.mainAnalyzer.latitude - CL.solar_declination 355| ∧
      |CL.mainAnalyzer.latitude - CL.solar_declination 355| ≤ 1.7108 := by
  rw [decl355]
  obtain ⟨hc1, hc2⟩ := cos_pi_div_730_bounds
  have hlat : CL.mainAnalyzer.latitude = -21 - 44 / 60 - 21.3 / 3600 := rfl
  rw [hlat, abs_of_pos (by nlinarith)]
  constructor <;> nlinarith

lemma radians_winter_bounds :
    0.7886 ≤ radians |CL.mainAnalyzer.latitude - CL.solar_declination 172| ∧
      radians |CL.mainAnalyzer.latitude - CL.solar_declination 172| ≤ 0.7888 := by
  obtain ⟨h1, h2⟩ := u_winter_bounds
  unfold radians
  have hpi1 := Real.pi_gt_d6
  have hpi2 := Real.pi_lt_d6
  constructor <;> nlinarith

lemma radians_summer_bounds :
    0.0298 ≤ radians |CL.mainAnalyzer.latitude - CL.solar_declination 355| ∧
      radians |CL.mainAnalyzer.latitude - CL.solar_declination 355| ≤ 0.0299 := by
  obtain ⟨h1, h2⟩ := u_summer_bounds
  unfold radians
  have hpi1 := Real.pi_gt_d6
  have hpi2 := Real.pi_lt_d6
  constructor <;> nlinarith

lemma cos_double_sin_sq (t : ℝ) : Real.cos t = 1 - 2 * Real.sin (t / 2) ^ 2 := by
  have h := Real.cos_two_mul (t / 2)
  have ht : 2 * (t / 2) = t := by ring
  rw [ht] at h
  have hsq := Real.sin_sq_add_cos_sq (t / 2)
  linarith

lemma tan_winter_bounds {t : ℝ} (h1 : 0.7886 ≤ t) (h2 : t ≤ 0.7888) :
    0.93 ≤ Real.tan t ∧ Real.tan t ≤ 1.15 := by
  have hsl : 0.6659 ≤ Real.sin t := by
    have hs := Real.sin_gt_sub_cube (by linarith : (0:ℝ) < t) (by linarith : t ≤ 1)
    have hcube : t ^ 3 ≤ 0.7888 ^ 3 := pow_le_pow_left (by linarith) h2 3
    nlinarith
  have hsu : Real.sin t ≤ t := (Real.sin_lt (by linarith)).le
  have hcl : 0.6888 ≤ Real.cos t := by
    have h := Real.one_sub_sq_div_two_le_cos (x := t)
    nlinarith
  have hcu : Real.cos t ≤ 0.7129 := by
    have hhalf1 : (0:ℝ) < t / 2 := by linarith
    have hhalf2 : t / 2 ≤ 1 := by linarith
    have hs := Real.sin_gt_sub_cube hhalf1 hhalf2
    have hcube : (t / 2) ^ 3 ≤ 0.3944 ^ 3 := pow_le_pow_left (by linarith) (by linarith) 3
    have hb : (0.3789 : ℝ) ≤ Real.sin (t / 2) := by nlinarith
    have hsq : (0.3789 : ℝ) ^ 2 ≤ Real.sin (t / 2) ^ 2 := by nlinarith
    rw [cos_double_sin_sq]
    nlinarith
  have hcpos : 0 < Real.cos t := by linarith
  rw [Real.tan_eq_sin_div_cos]
  constructor
  · rw [le_div_iff hcpos]
    nlinarith
  · rw [div_le_iff hcpos]
    nlinarith

lemma tan_summer_bounds {t : ℝ} (h1 : 0.0298 ≤ t) (h2 : t ≤ 0.0299) :
    0.0297 ≤ Real.tan t ∧ Real.tan t ≤ 0.03 := by
  have hpos : (0:ℝ) < t := by linarith
  have hsl : 0.0297 ≤ Real.sin t := by
    have hs := Real.sin_gt_sub_cube hpos (by linarith : t ≤ 1)
    have hcube : t ^ 3 ≤ 0.0299 ^ 3 := pow_le_pow_left (by linarith) h2 3
    nlinarith
  have hsu : Real.sin t ≤ t := (Real.sin_lt hpos).le
  have hcu : Real.cos t ≤ 1 := Real.cos_le_one t
  have hcl : 0.999 ≤ Real.cos t := by
    have h := Real.one_sub_sq_div_two_le_cos (x := t)
    nlinarith
  have hcpos : 0 < Real.cos t := by linarith
  rw [Real.tan_eq_sin_div_cos]
  constructor
  · rw [le_div_iff hcpos]
    nlinarith
  · rw [div_le_iff hcpos]
    nlinarith

/-- The CL pipeline at the main analyzer, day 172: the computed winter shadow
is finite and lies between 1.5 m and 2 m. -/
lemma winter_facts :
    CL.seasonShadow CL.mainAnalyzer 172 = some (some CL.winterShadow) ∧
      1.5 ≤ CL.winterShadow ∧ CL.winterShadow ≤ 2 := by
  obtain ⟨hu1, hu2⟩ := u_winter_bounds
  have hform := seasonShadow_formula CL.mainAnalyzer 172 (by linarith) (by linarith)
  have hval : CL.winterShadow = CL.mainAnalyzer.obstacle_height *
      Real.tan (radians |CL.mainAnalyzer.latitude - CL.solar_declination 172|) := by
    unfold CL.winterShadow
    rw [hform]
    rfl
  obtain ⟨ht1, ht2⟩ := radians_winter_bounds
  obtain ⟨htan1, htan2⟩ := tan_winter_bounds ht1 ht2
  have hobs : CL.mainAnalyzer.obstacle_height = 1.65 := rfl
  refine ⟨by rw [hval]; exact hform, ?_, ?_⟩ <;> rw [hval, hobs] <;> nlinarith

/-- The CL pipeline at the main analyzer, day 355: the computed summer shadow
is finite and lies between 0.03 m and 0.07 m. -/
lemma summer_facts :
    CL.seasonShadow CL.mainAnalyzer 355 = some (some CL.summerShadow) ∧
      0.03 ≤ CL.summerShadow ∧ CL.summerShadow ≤ 0.07 := by
  obtain ⟨hu1, hu2⟩ := u_summer_bounds
  have hform := seasonShadow_formula CL.mainAnalyzer 355 (by linarith) (by linarith)
  have hval : CL.summerShadow = CL.mainAnalyzer.obstacle_height *
      Real.tan (radians |CL.mainAnalyzer.latitude - CL.solar_declination 355|) := by
    unfold CL.summerShadow
    rw [hform]
    rfl
  obtain ⟨ht1, ht2⟩ := radians_summer_bounds
  obtain ⟨htan1, htan2⟩ := tan_summer_bounds ht1 ht2
  have hobs : CL.mainAnalyzer.obstacle_height = 1.65 := rfl
  refine ⟨by rw [hval]; exact hform, ?_, ?_⟩ <;> rw [hval, hobs] <;> nlinarith

end ShadowCalc

namespace ShadowCalc

/-! ## Claim theorems -/

/-- Claim C1 (amended): for every elevation input at or below zero, the CL,
DS and GE shadow-length operations return the explicit INFINITE sentinel,
while the CG variant applies no guard and returns the computed division
result `height / tan(radians(elevation))`. -/
theorem claim_C1 (a : CL.SolarShadowAnalyzer) (h e : ℝ) (he : e ≤ 0) :
    CL.shadow_length a e = none ∧ DS.calcular_comprimento_sombra h e = none ∧
      GE.calculate_shadow_length h e = none ∧
      CG.comprimento_sombra h e = h / Real.tan (radians e) := by
  refine ⟨?_, ?_, ?_, rfl⟩
  · unfold CL.shadow_length
    rw [if_pos he]
  · unfold DS.calcular_comprimento_sombra
    rw [if_pos he]
  · unfold GE.calculate_shadow_length
    rw [if_pos he]

theorem claim_C1_witness :
    ((-1 : ℝ) ≤ 0) ∧
      (CL.shadow_length CL.mainAnalyzer (-1) = none ∧
        DS.calcular_comprimento_sombra 1 (-1) = none ∧
        GE.calculate_shadow_length 1 (-1) = none ∧
        CG.comprimento_sombra 1 (-1) = 1 / Real.tan (radians (-1))) :=
  ⟨by norm_num, claim_C1 CL.mainAnalyzer 1 (-1) (by norm_num)⟩

/-- Claim C1 counterexample: at obstacle height 1.65 and elevation -45 (which
is at or below zero), the CG shadow-length operation returns the finite
computed division result -1.65, not an INFINITE sentinel. -/
theorem claim_C1_cex :
    CG.comprimento_sombra 1.65 (-45) = -1.65 ∧ ((-45 : ℝ) ≤ 0) := by
  constructor
  · unfold CG.comprimento_sombra radians
    have harg : (-45 : ℝ) * Real.pi / 180 = -(Real.pi / 4) := by ring
    rw [harg, Real.tan_neg, Real.tan_pi_div_four]
    norm_num
  · norm_num

/-- Claim C2: none of the three asin-based elevation operations can raise a
math-domain error, for any real latitude, declination and hour angle: the GE
variant clamps its asin argument, and the CL and DS variants pass an argument
that always lies in `[-1, 1]` in exact real arithmetic. -/
theorem claim_C2 :
    (∀ lat decl hour, (GE.calculate_solar_elevation lat decl hour).isSome) ∧
      (∀ (a : CL.SolarShadowAnalyzer) decl hour,
        (CL.solar_elevation a decl hour).isSome) ∧
      (∀ lat decl hour, (DS.calcular_elevacao_solar lat decl hour).isSome) := by
  refine ⟨?_, ?_, ?_⟩
  · intro lat decl hour
    have h1 : (-1 : ℝ) ≤ max (-1) (min 1 (Real.sin (radians lat) * Real.sin decl +
        Real.cos (radians lat) * Real.cos decl * Real.cos hour)) := le_max_left _ _
    have h2 : max (-1 : ℝ) (min 1 (Real.sin (radians lat) * Real.sin decl +
        Real.cos (radians lat) * Real.cos decl * Real.cos hour)) ≤ 1 :=
      max_le (by norm_num) (min_le_left _ _)
    simp only [GE.calculate_solar_elevation, asinChecked_eq_some h1 h2,
      Option.map_some', Option.isSome_some]
  · intro a decl hour
    obtain ⟨h1, h2⟩ := asin_arg_bounds (radians a.latitude) (radians decl) (radians hour)
    simp only [CL.solar_elevation, asinChecked_eq_some h1 h2,
      Option.map_some', Option.isSome_some]
  · intro lat decl hour
    obtain ⟨h1, h2⟩ := asin_arg_bounds (radians lat) (radians decl) (radians hour)
    simp only [DS.calcular_elevacao_solar, asinChecked_eq_some h1 h2,
      Option.map_some', Option.isSome_some]

/-- Claim C10: each DMS-to-decimal conversion returns
`-(d + m/60 + s/3600)` when the direction is S or W, and
`d + m/60 + s/3600` for every other direction. -/
theorem claim_C10 (d m s : ℝ) (dir : Char) :
    GE.dms_to_decimal d m s dir =
      (if dir = 'S' ∨ dir = 'W' then -(d + m / 60 + s / 3600)
        else d + m / 60 + s / 3600) ∧
      CL.dms_to_decimal d m s dir =
        (if dir = 'S' ∨ dir = 'W' then -(d + m / 60 + s / 3600)
          else d + m / 60 + s / 3600) ∧
      DS.graus_para_decimal d m s dir =
        (if dir = 'S' ∨ dir = 'W' then -(d + m / 60 + s / 3600)
          else d + m / 60 + s / 3600) := by
  refine ⟨?_, ?_, ?_⟩ <;>
    simp only [GE.dms_to_decimal, CL.dms_to_decimal, DS.graus_para_decimal] <;>
    split <;> ring

/-- Claim C4: the CL and DS elevation operations return an angle α in degrees
with `sin α = sin φ sin δ + cos φ cos δ cos ω` and `α = asin(sin α)`, for all
real inputs; the CG closed form `90 - |φ - δ|` satisfies the same equation at
hour angle zero, the asin fixed point holding whenever `|φ - δ| ≤ 180`, which
covers every input CG receives. -/
theorem claim_C4 :
    (∀ (a : CL.SolarShadowAnalyzer) (δ ω : ℝ), ∃ α,
      CL.solar_elevation a δ ω = some α ∧
        Real.sin (radians α) =
          Real.sin (radians a.latitude) * Real.sin (radians δ) +
            Real.cos (radians a.latitude) * Real.cos (radians δ) *
              Real.cos (radians ω) ∧
        α = degreesOf (Real.arcsin (Real.sin (radians α)))) ∧
      (∀ lat δ ω : ℝ, ∃ α,
        DS.calcular_elevacao_solar lat δ ω = some α ∧
          Real.sin (radians α) =
            Real.sin (radians lat) * Real.sin (radians δ) +
              Real.cos (radians lat) * Real.cos (radians δ) *
                Real.cos (radians ω) ∧
          α = degreesOf (Real.arcsin (Real.sin (radians α)))) ∧
      (∀ φ δ : ℝ,
        Real.sin (radians (CG.elevacao_solar φ δ)) =
          Real.sin (radians φ) * Real.sin (radians δ) +
            Real.cos (radians φ) * Real.cos (radians δ) * Real.cos (radians 0) ∧
          (|φ - δ| ≤ 180 →
            CG.elevacao_solar φ δ =
              degreesOf (Real.arcsin (Real.sin (radians (CG.elevacao_solar φ δ)))))) := by
  refine ⟨?_, ?_, ?_⟩
  · intro a δ ω
    obtain ⟨h1, h2⟩ := asin_arg_bounds (radians a.latitude) (radians δ) (radians ω)
    refine ⟨degreesOf (Real.arcsin (Real.sin (radians a.latitude) * Real.sin (radians δ) +
      Real.cos (radians a.latitude) * Real.cos (radians δ) * Real.cos (radians ω))), ?_, ?_, ?_⟩
    · simp only [CL.solar_elevation, asinChecked_eq_some h1 h2, Option.map_some']
    · rw [radians_degreesOf, Real.sin_arcsin h1 h2]
    · rw [radians_degreesOf, Real.sin_arcsin h1 h2]
  · intro lat δ ω
    obtain ⟨h1, h2⟩ := asin_arg_bounds (radians lat) (radians δ) (radians ω)
    refine ⟨degreesOf (Real.arcsin (Real.sin (radians lat) * Real.sin (radians δ) +
      Real.cos (radians lat) * Real.cos (radians δ) * Real.cos (radians ω))), ?_, ?_, ?_⟩
    · simp only [DS.calcular_elevacao_solar, asinChecked_eq_some h1 h2, Option.map_some']
    · rw [radians_degreesOf, Real.sin_arcsin h1 h2]
    · rw [radians_degreesOf, Real.sin_arcsin h1 h2]
  · intro φ δ
    have heq : Real.sin (radians (CG.elevacao_solar φ δ)) =
        Real.sin (radians φ) * Real.sin (radians δ) +
          Real.cos (radians φ) * Real.cos (radians δ) * Real.cos (radians 0) := by
      show Real.sin (radians (90 - |φ - δ|)) = _
      rw [radians_ninety_sub, Real.sin_pi_div_two_sub, noonArg_eq_cos]
    refine ⟨heq, fun h => ?_⟩
    rw [heq, noonArg_eq_cos, arcsin_cos_radians (abs_nonneg _) h,
      degrees_pi_div_two_sub]
    rfl

theorem claim_C4_witness :
    (|(10 : ℝ) - 20| ≤ 180) ∧
      CG.elevacao_solar 10 20 =
        degreesOf (Real.arcsin (Real.sin (radians (CG.elevacao_solar 10 20)))) :=
  ⟨by norm_num, (claim_C4.2.2 10 20).2 (by norm_num)⟩

/-- Claim C9: whenever `|φ - δ| ≤ 90`, the CG closed-form noon elevation
`90 - |φ - δ|` coincides exactly with the asin-based noon elevation
(in degrees) computed by the CL and DS variants at hour angle 0. -/
theorem claim_C9 (φ δ lon hOb : ℝ) (ss : List (String × ℝ × String))
    (h : |φ - δ| ≤ 90) :
    CL.solar_elevation ⟨φ, lon, hOb, ss⟩ δ 0 = some (CG.elevacao_solar φ δ) ∧
      DS.calcular_elevacao_solar φ δ 0 = some (CG.elevacao_solar φ δ) := by
  have h180 : |φ - δ| ≤ 180 := by linarith
  exact ⟨CL_elev_noon ⟨φ, lon, hOb, ss⟩ δ h180, DS_elev_noon φ δ h180⟩

theorem claim_C9_witness :
    (|(-21.74 : ℝ) - 23.45| ≤ 90) ∧
      (CL.solar_elevation ⟨-21.74, 0, 1.65, []⟩ 23.45 0 =
          some (CG.elevacao_solar (-21.74) 23.45) ∧
        DS.calcular_elevacao_solar (-21.74) 23.45 0 =
          some (CG.elevacao_solar (-21.74) 23.45)) :=
  ⟨by rw [abs_le]; norm_num,
    claim_C9 (-21.74) 23.45 0 1.65 [] (by rw [abs_le]; norm_num)⟩

/-- Claim C6: for a positive obstacle height and elevations
`0 < e1 < e2 < 90`, the CL and DS shadow-length operations return finite
values that are strictly positive and strictly decreasing in elevation. -/
theorem claim_C6 (a : CL.SolarShadowAnalyzer) (e1 e2 : ℝ)
    (hh : 0 < a.obstacle_height) (h1 : 0 < e1) (h12 : e1 < e2) (h2 : e2 < 90) :
    (∃ L1 L2, CL.shadow_length a e1 = some L1 ∧ CL.shadow_length a e2 = some L2 ∧
      0 < L2 ∧ L2 < L1) ∧
      (∃ M1 M2, DS.calcular_comprimento_sombra a.obstacle_height e1 = some M1 ∧
        DS.calcular_comprimento_sombra a.obstacle_height e2 = some M2 ∧
        0 < M2 ∧ M2 < M1) := by
  obtain ⟨hpos, hlt⟩ := tan_shadow_mono hh h1 h12 h2
  refine ⟨⟨_, _, CL_shadow_of_pos a h1, CL_shadow_of_pos a (h1.trans h12), hpos, hlt⟩,
    ⟨_, _, DS_shadow_of_pos a.obstacle_height h1,
      DS_shadow_of_pos a.obstacle_height (h1.trans h12), hpos, hlt⟩⟩

theorem claim_C6_witness :
    ((0 : ℝ) < CL.mainAnalyzer.obstacle_height ∧ (0 : ℝ) < 30 ∧
        (30 : ℝ) < 60 ∧ (60 : ℝ) < 90) ∧
      ((∃ L1 L2, CL.shadow_length CL.mainAnalyzer 30 = some L1 ∧
          CL.shadow_length CL.mainAnalyzer 60 = some L2 ∧ 0 < L2 ∧ L2 < L1) ∧
        (∃ M1 M2,
          DS.calcular_comprimento_sombra CL.mainAnalyzer.obstacle_height 30 = some M1 ∧
          DS.calcular_comprimento_sombra CL.mainAnalyzer.obstacle_height 60 = some M2 ∧
          0 < M2 ∧ M2 < M1)) :=
  ⟨⟨by norm_num [CL.mainAnalyzer], by norm_num, by norm_num, by norm_num⟩,
    claim_C6 CL.mainAnalyzer 30 60 (by norm_num [CL.mainAnalyzer]) (by norm_num)
      (by norm_num) (by norm_num)⟩

/-- Claim C7: the seasonal-shadows loops of the CL and DS variants succeed on
every season table and enumerate their output entries in exactly the
insertion order of the input reference points. -/
theorem claim_C7 :
    (∀ a : CL.SolarShadowAnalyzer, ∃ res,
      CL.calculate_seasonal_shadows a = some res ∧
        res.map Prod.fst = a.seasons.map Prod.fst) ∧
      (∀ (lat alt : ℝ) (es : List (String × String × ℝ)), ∃ res,
        DS.resultadosLoop lat alt es = some res ∧
          res.map Prod.fst = es.map Prod.fst) := by
  constructor
  · intro a
    unfold CL.calculate_seasonal_shadows
    induction a.seasons with
    | nil => exact ⟨[], rfl, rfl⟩
    | cons p rest ih =>
      obtain ⟨s, d, n⟩ := p
      obtain ⟨α, hα⟩ := CL_elev_isSome a (CL.solar_declination d) 0
      obtain ⟨res, hres, hkeys⟩ := ih
      refine ⟨(s, CL.SeasonResult.mk (CL.solar_declination d) α
        (CL.shadow_length a α) n) :: res, ?_, ?_⟩
      · simp only [CL.seasonalLoop, hα, hres, Option.map_some']
      · simp only [List.map_cons, hkeys]
  · intro lat alt es
    induction es with
    | nil => exact ⟨[], rfl, rfl⟩
    | cons p rest ih =>
      obtain ⟨s, dataStr, d⟩ := p
      obtain ⟨α, hα⟩ := DS_elev_isSome lat (DS.calcular_declinacao_solar d) 0
      obtain ⟨res, hres, hkeys⟩ := ih
      refine ⟨(s, DS.Resultado.mk (DS.calcular_declinacao_solar d) α
        (DS.calcular_comprimento_sombra alt α) dataStr) :: res, ?_, ?_⟩
      · simp only [DS.resultadosLoop, hα, hres, Option.map_some']
      · simp only [List.map_cons, hkeys]

/-- Claim C8: the CL seasonal-shadows computation is a pure function of the
latitude, obstacle height and season table of the analyzer: any two analyzer
states agreeing on those fields (the longitude field is never read) produce
identical outputs, so repeated invocations on identical inputs are
bit-identical. -/
theorem claim_C8 (a1 a2 : CL.SolarShadowAnalyzer)
    (hlat : a1.latitude = a2.latitude)
    (hh : a1.obstacle_height = a2.obstacle_height)
    (hs : a1.seasons = a2.seasons) :
    CL.calculate_seasonal_shadows a1 = CL.calculate_seasonal_shadows a2 := by
  have helev : ∀ δ ω, CL.solar_elevation a1 δ ω = CL.solar_elevation a2 δ ω := by
    intro δ ω
    unfold CL.solar_elevation
    rw [hlat]
  have hshadow : ∀ e, CL.shadow_length a1 e = CL.shadow_length a2 e := by
    intro e
    unfold CL.shadow_length
    rw [hh]
  have hloop : ∀ l, CL.seasonalLoop a1 l = CL.seasonalLoop a2 l := by
    intro l
    induction l with
    | nil => rfl
    | cons p rest ih =>
      obtain ⟨s, d, n⟩ := p
      simp only [CL.seasonalLoop, helev, hshadow, ih]
  unfold CL.calculate_seasonal_shadows
  rw [hs, hloop]

theorem claim_C8_witness :
    CL.calculate_seasonal_shadows CL.mainAnalyzer =
      CL.calculate_seasonal_shadows
        ⟨CL.mainAnalyzer.latitude, 0, CL.mainAnalyzer.obstacle_height,
          CL.mainAnalyzer.seasons⟩ :=
  claim_C8 CL.mainAnalyzer
    ⟨CL.mainAnalyzer.latitude, 0, CL.mainAnalyzer.obstacle_height,
      CL.mainAnalyzer.seasons⟩ rfl rfl rfl

/-- Claim C3 (amended): the CL, DS (and CG) declination operations return the
degree-valued Cooper form `23.45 sin(radians(360 (284+n)/365))`, all three
identical; the GE variant returns the radian-form value
`0.409 sin(2 pi/365 n - 1.39)` in RADIANS, a value of magnitude at most
0.409, not its degree conversion. -/
theorem claim_C3 (n : ℝ) :
    CL.solar_declination n = 23.45 * Real.sin (radians (360 * (284 + n) / 365)) ∧
      DS.calcular_declinacao_solar n = CL.solar_declination n ∧
      GE.calculate_solar_declination n =
        0.409 * Real.sin (2 * Real.pi / 365 * n - 1.39) ∧
      |GE.calculate_solar_declination n| ≤ 0.409 := by
  refine ⟨rfl, rfl, rfl, ?_⟩
  unfold GE.calculate_solar_declination
  rw [abs_mul]
  have h1 : |Real.sin (2 * Real.pi / 365 * n - 1.39)| ≤ 1 :=
    Real.abs_sin_le_one _
  have h2 : |(0.409 : ℝ)| = 0.409 := by norm_num
  rw [h2]
  nlinarith

/-- Claim C3 counterexample: at day 172 the GE declination output is neither
the radian-form value expressed in degrees nor the degree-valued Cooper
value, because GE returns the radian-form value itself (about 0.409 rad). -/
theorem claim_C3_cex :
    GE.calculate_solar_declination 172 ≠
        degreesOf (0.409 * Real.sin (2 * Real.pi / 365 * 172 - 1.39)) ∧
      GE.calculate_solar_declination 172 ≠ CL.solar_declination 172 := by
  have hpi1 := Real.pi_gt_d6
  have hpi2 := Real.pi_lt_d6
  have hxpos : 0 < 2 * Real.pi / 365 * 172 - 1.39 := by nlinarith
  have hxlt : 2 * Real.pi / 365 * 172 - 1.39 < Real.pi := by nlinarith
  have hsin : 0 < Real.sin (2 * Real.pi / 365 * 172 - 1.39) :=
    Real.sin_pos_of_pos_of_lt_pi hxpos hxlt
  constructor
  · intro h
    unfold GE.calculate_solar_declination degreesOf at h
    have hpi0 : Real.pi ≠ 0 := Real.pi_ne_zero
    rw [eq_div_iff hpi0] at h
    nlinarith
  · intro h
    rw [decl172] at h
    unfold GE.calculate_solar_declination at h
    have hs1 : Real.sin (2 * Real.pi / 365 * 172 - 1.39) ≤ 1 := Real.sin_le_one _
    obtain ⟨hc1, _⟩ := cos_pi_div_730_bounds
    nlinarith

/-- Claim C5 (amended): at latitude -21.74 and height 1.65 m, the CL pipeline
(Cooper degrees declination, asin elevation at hour angle 0) computes a
winter (day 172) shadow length between 1.5 m and 2 m, and a summer (day 355)
shadow length between 0.03 m and 0.07 m. -/
theorem claim_C5 :
    CL.seasonShadow CL.mainAnalyzer 172 = some (some CL.winterShadow) ∧
      1.5 ≤ CL.winterShadow ∧ CL.winterShadow ≤ 2 ∧
      CL.seasonShadow CL.mainAnalyzer 355 = some (some CL.summerShadow) ∧
      0.03 ≤ CL.summerShadow ∧ CL.summerShadow ≤ 0.07 := by
  obtain ⟨h1, h2, h3⟩ := winter_facts
  obtain ⟨h4, h5, h6⟩ := summer_facts
  exact ⟨h1, h2, h3, h4, h5, h6⟩

/-- Claim C5 counterexample: the winter (day 172) shadow length computed by
the CL pipeline at the main analyzer is strictly below 5.5 m, so it does not
lie in the claimed 5.5-6.3 m band. -/
theorem claim_C5_cex :
    CL.seasonShadow CL.mainAnalyzer 172 = some (some CL.winterShadow) ∧
      CL.winterShadow < 5.5 := by
  obtain ⟨h1, _, h3⟩ := winter_facts
  exact ⟨h1, by linarith⟩

end ShadowCalc
